import Mathlib

/-!
Verification of the BTC-FINAL fractal forecasting backend.

The definitions below are a shallow embedding of the SPX unified routes
(`src/backend/src/modules/fractal/api/fractal.spx.routes.ts`), the hybrid
chart's agreement classifier (`src/unnamed/part_002` / `part_003`), the
overlay hook's window clamping (`src/unnamed/part_004`) and — where the
engine itself is not among the provided sources — the Risk & Sizing Engine
as described by the specification.  JavaScript numbers are modelled as
exact rationals (ℚ); a fallible FocusPack build is modelled as a function
returning `Option`/`Except`.
-/

-- ═══════════════════════════════════════════════════════════════
-- Consensus route (GET /api/fractal/spx/consensus)
-- ═══════════════════════════════════════════════════════════════

/-- Per-horizon trading action, as produced by the consensus route. -/
inductive SpxAction where
  | LONG
  | SHORT
  | HOLD
deriving DecidableEq, Repr

/-- The slice of a built FocusPack that the consensus route reads:
`pack.overlay.stats.medianReturn`, `pack.overlay.stats.hitRate` and
`pack.diagnostics.reliability`. -/
structure SpxStats where
  medianReturn : ℚ
  hitRate : ℚ
  reliability : ℚ
deriving DecidableEq, Repr

/-- One entry of the consensus route's `results` array. -/
structure SpxHorizonResult where
  horizon : String
  medianReturn : ℚ
  hitRate : ℚ
  action : SpxAction
  confidence : ℚ
deriving DecidableEq, Repr

/-- The dead-band thresholding of the consensus route:
`medianReturn > 0.02 ? 'LONG' : medianReturn < -0.02 ? 'SHORT' : 'HOLD'`. -/
def spxActionOf (medianReturn : ℚ) : SpxAction :=
  if 2/100 < medianReturn then SpxAction.LONG
  else if medianReturn < -(2/100) then SpxAction.SHORT
  else SpxAction.HOLD

/-- The outcome of `buildSpxFocusPack` per horizon, as the consensus route
sees it: `some stats` when the build succeeds, `none` when it throws. -/
def SpxEnv : Type := String → Option SpxStats

/-- The body of the `horizons.map` in the consensus route: a successful
build yields the thresholded action, a thrown build is caught and replaced
by `{horizon, medianReturn: 0, hitRate: 0, action: 'HOLD', confidence: 0}`. -/
def spxHorizonEval (env : SpxEnv) (h : String) : SpxHorizonResult :=
  match env h with
  | some s =>
      { horizon := h
        medianReturn := s.medianReturn
        hitRate := s.hitRate
        action := spxActionOf s.medianReturn
        confidence := s.reliability }
  | none =>
      { horizon := h
        medianReturn := 0
        hitRate := 0
        action := SpxAction.HOLD
        confidence := 0 }

/-- The horizon set evaluated by the consensus route. -/
def spxConsensusHorizons : List String := ["7d", "14d", "30d", "90d"]

/-- The `results` array of the consensus route. -/
def spxConsensusResults (env : SpxEnv) : List SpxHorizonResult :=
  spxConsensusHorizons.map (spxHorizonEval env)

/-- Boolean test used to tally one action. -/
def actionIs (a : SpxAction) (r : SpxHorizonResult) : Bool :=
  decide (r.action = a)

/-- `longCount` of the consensus route. -/
def spxLongCount (env : SpxEnv) : ℕ :=
  (spxConsensusResults env).countP (actionIs SpxAction.LONG)

/-- `shortCount` of the consensus route. -/
def spxShortCount (env : SpxEnv) : ℕ :=
  (spxConsensusResults env).countP (actionIs SpxAction.SHORT)

/-- `actions.filter(a => a === 'HOLD').length` of the consensus route. -/
def spxHoldCount (env : SpxEnv) : ℕ :=
  (spxConsensusResults env).countP (actionIs SpxAction.HOLD)

/-- The consensus action:
`longCount >= 3 ? LONG : shortCount >= 3 ? SHORT : HOLD`. -/
def spxConsensusAction (env : SpxEnv) : SpxAction :=
  if 3 ≤ spxLongCount env then SpxAction.LONG
  else if 3 ≤ spxShortCount env then SpxAction.SHORT
  else SpxAction.HOLD

/-- `Math.max(longCount, shortCount, holdCount)` — the size of the largest
voting bloc, i.e. the tally of the plurality action. -/
def spxMajorityCount (env : SpxEnv) : ℕ :=
  max (spxLongCount env) (max (spxShortCount env) (spxHoldCount env))

/-- `consensusStrength = Math.max(long, short, hold) / horizons.length`. -/
def spxConsensusStrength (env : SpxEnv) : ℚ :=
  (spxMajorityCount env : ℚ) / (spxConsensusHorizons.length : ℚ)

/-- The `consensus` object of the route's response. -/
structure SpxConsensusOut where
  action : SpxAction
  strength : ℚ
  horizonBreakdown : List SpxHorizonResult
deriving DecidableEq, Repr

/-- The consensus route's response body (success path). -/
def spxConsensus (env : SpxEnv) : SpxConsensusOut :=
  { action := spxConsensusAction env
    strength := spxConsensusStrength env
    horizonBreakdown := spxConsensusResults env }

-- Helper lemmas about the tallies.

/-- Every result votes for exactly one action, so the three tallies
partition the result list. -/
theorem countP_action_partition (l : List SpxHorizonResult) :
    l.countP (actionIs SpxAction.LONG) + l.countP (actionIs SpxAction.SHORT)
      + l.countP (actionIs SpxAction.HOLD) = l.length := by
  induction l with
  | nil => simp [List.countP_nil]
  | cons a l ih =>
      simp only [List.countP_cons, List.length_cons]
      cases h : a.action <;> simp [actionIs, h] <;> omega

theorem spx_counts_sum (env : SpxEnv) :
    spxLongCount env + spxShortCount env + spxHoldCount env = 4 := by
  have h := countP_action_partition (spxConsensusResults env)
  simpa [spxLongCount, spxShortCount, spxHoldCount, spxConsensusResults,
    spxConsensusHorizons] using h

-- Concrete environments used to exercise the consensus route.

/-- Stats with a median forecast return of +5%, above the +2% dead-band. -/
def spxStatsLong : SpxStats :=
  { medianReturn := 5/100, hitRate := 6/10, reliability := 1/2 }

/-- Environment in which every horizon builds successfully with +5% median. -/
def spxEnvAllLong : SpxEnv := fun _ => some spxStatsLong

/-- Environment in which 7d and 14d build successfully (LONG) while 30d and
90d throw. -/
def spxEnvMixed : SpxEnv := fun h =>
  if h = "7d" ∨ h = "14d" then some spxStatsLong else none

/-- C1: the consensus action is LONG exactly when at least 3 horizons vote
LONG, SHORT exactly when at least 3 vote SHORT, and HOLD in every other
case. -/
theorem spxConsensus_action_quorum (env : SpxEnv) :
    ((spxConsensus env).action = SpxAction.LONG ↔ 3 ≤ spxLongCount env) ∧
    ((spxConsensus env).action = SpxAction.SHORT ↔ 3 ≤ spxShortCount env) ∧
    ((spxConsensus env).action = SpxAction.HOLD ↔
      spxLongCount env < 3 ∧ spxShortCount env < 3) := by
  have hsum := spx_counts_sum env
  simp only [spxConsensus]
  unfold spxConsensusAction
  split_ifs with h1 h2 <;>
    refine ⟨?_, ?_, ?_⟩ <;> simp <;> omega

/-- C2 counterexample: with 7d and 14d voting LONG and 30d, 90d failing,
the route counts the two failed horizons as HOLD votes (holdCount = 2, not
0) and still divides by the full horizon count 4 (strength = 1/2, not
2/2 = 1), contradicting the claim that failed horizons contribute no vote
and do not enter the strength denominator. -/
theorem spxConsensus_failed_horizons_counted :
    spxEnvMixed "30d" = none ∧ spxEnvMixed "90d" = none ∧
    spxLongCount spxEnvMixed = 2 ∧ spxShortCount spxEnvMixed = 0 ∧
    spxHoldCount spxEnvMixed = 2 ∧
    (spxConsensus spxEnvMixed).strength = 1/2 := by
  have e7 : spxHorizonEval spxEnvMixed "7d" =
      { horizon := "7d", medianReturn := 5/100, hitRate := 6/10,
        action := SpxAction.LONG, confidence := 1/2 } := by
    simp [spxHorizonEval, spxEnvMixed, spxStatsLong, spxActionOf]
    norm_num
  have e14 : spxHorizonEval spxEnvMixed "14d" =
      { horizon := "14d", medianReturn := 5/100, hitRate := 6/10,
        action := SpxAction.LONG, confidence := 1/2 } := by
    simp [spxHorizonEval, spxEnvMixed, spxStatsLong, spxActionOf]
    norm_num
  have e30 : spxHorizonEval spxEnvMixed "30d" =
      { horizon := "30d", medianReturn := 0, hitRate := 0,
        action := SpxAction.HOLD, confidence := 0 } := by
    simp [spxHorizonEval, spxEnvMixed]
  have e90 : spxHorizonEval spxEnvMixed "90d" =
      { horizon := "90d", medianReturn := 0, hitRate := 0,
        action := SpxAction.HOLD, confidence := 0 } := by
    simp [spxHorizonEval, spxEnvMixed]
  refine ⟨by simp [spxEnvMixed], by simp [spxEnvMixed], ?_, ?_, ?_, ?_⟩ <;>
    · simp [spxLongCount, spxShortCount, spxHoldCount, spxConsensus,
        spxConsensusStrength, spxMajorityCount, spxConsensusResults,
        spxConsensusHorizons, e7, e14, e30, e90, actionIs]
      try norm_num

/-- C2 amended: a horizon whose build throws is caught and converted into a
HOLD vote with zeroed stats and confidence 0; it is tallied like any other
result, and the strength denominator stays the full horizon count 4. -/
theorem spxFailedHorizon_becomes_hold (env : SpxEnv) (h : String)
    (hfail : env h = none) :
    (spxHorizonEval env h).action = SpxAction.HOLD ∧
    (spxHorizonEval env h).confidence = 0 ∧
    (spxHorizonEval env h).medianReturn = 0 ∧
    (spxHorizonEval env h).hitRate = 0 ∧
    (spxConsensus env).strength = (spxMajorityCount env : ℚ) / 4 := by
  refine ⟨?_, ?_, ?_, ?_, ?_⟩ <;>
    simp [spxHorizonEval, hfail, spxConsensus, spxConsensusStrength,
      spxConsensusHorizons]

/-- Witness for the amended C2 at the mixed environment's failing 30d. -/
theorem spxFailedHorizon_becomes_hold_witness :
    (spxHorizonEval spxEnvMixed "30d").action = SpxAction.HOLD ∧
    (spxHorizonEval spxEnvMixed "30d").confidence = 0 ∧
    (spxHorizonEval spxEnvMixed "30d").medianReturn = 0 ∧
    (spxHorizonEval spxEnvMixed "30d").hitRate = 0 ∧
    (spxConsensus spxEnvMixed).strength = (spxMajorityCount spxEnvMixed : ℚ) / 4 :=
  spxFailedHorizon_becomes_hold spxEnvMixed "30d" (by decide)

/-- C4: the reported consensus strength equals the tally of the plurality
action divided by the number of horizons (4), and always lies in [0,1]. -/
theorem spxConsensus_strength_spec (env : SpxEnv) :
    (spxConsensus env).strength = (spxMajorityCount env : ℚ) / 4 ∧
    0 ≤ (spxConsensus env).strength ∧ (spxConsensus env).strength ≤ 1 := by
  have hsum := spx_counts_sum env
  have hmaj : spxMajorityCount env ≤ 4 := by
    unfold spxMajorityCount; omega
  refine ⟨?_, ?_, ?_⟩
  · simp [spxConsensus, spxConsensusStrength, spxConsensusHorizons]
  · simp only [spxConsensus, spxConsensusStrength]
    positivity
  · simp only [spxConsensus, spxConsensusStrength, spxConsensusHorizons]
    rw [div_le_one (by norm_num)]
    norm_num
    exact_mod_cast hmaj

/-- The dead-band thresholding characterised as three mutually exclusive
conditions on the median return. -/
theorem spxActionOf_cases (m : ℚ) :
    (spxActionOf m = SpxAction.LONG ↔ 2/100 < m) ∧
    (spxActionOf m = SpxAction.SHORT ↔ m < -(2/100)) ∧
    (spxActionOf m = SpxAction.HOLD ↔ -(2/100) ≤ m ∧ m ≤ 2/100) := by
  unfold spxActionOf
  split_ifs with h1 h2
  · exact ⟨iff_of_true rfl h1,
      iff_of_false (by simp) (by intro hb; linarith),
      iff_of_false (by simp) (by rintro ⟨ha, hb⟩; linarith)⟩
  · exact ⟨iff_of_false (by simp) h1,
      iff_of_true rfl h2,
      iff_of_false (by simp) (by rintro ⟨ha, hb⟩; linarith)⟩
  · exact ⟨iff_of_false (by simp) h1,
      iff_of_false (by simp) h2,
      iff_of_true rfl ⟨not_lt.mp h2, not_lt.mp h1⟩⟩

/-- C5: a successfully evaluated horizon's action is the ±2% dead-band
thresholding of its median forecast return. -/
theorem spxHorizonAction_deadband (env : SpxEnv) (h : String) (s : SpxStats)
    (hs : env h = some s) :
    ((spxHorizonEval env h).action = SpxAction.LONG ↔ 2/100 < s.medianReturn) ∧
    ((spxHorizonEval env h).action = SpxAction.SHORT ↔ s.medianReturn < -(2/100)) ∧
    ((spxHorizonEval env h).action = SpxAction.HOLD ↔
      -(2/100) ≤ s.medianReturn ∧ s.medianReturn ≤ 2/100) := by
  simp only [spxHorizonEval, hs]
  exact spxActionOf_cases s.medianReturn

/-- Witness for C5 at a +5% median return, which votes LONG. -/
theorem spxHorizonAction_deadband_witness :
    ((spxHorizonEval spxEnvAllLong "7d").action = SpxAction.LONG ↔
      2/100 < spxStatsLong.medianReturn) ∧
    ((spxHorizonEval spxEnvAllLong "7d").action = SpxAction.SHORT ↔
      spxStatsLong.medianReturn < -(2/100)) ∧
    ((spxHorizonEval spxEnvAllLong "7d").action = SpxAction.HOLD ↔
      -(2/100) ≤ spxStatsLong.medianReturn ∧ spxStatsLong.medianReturn ≤ 2/100) :=
  spxHorizonAction_deadband spxEnvAllLong "7d" spxStatsLong rfl

-- ═══════════════════════════════════════════════════════════════
-- Agreement classification (hybrid chart, getAgreementLevel)
-- ═══════════════════════════════════════════════════════════════

/-- Agreement label between the synthetic model path and the replay path. -/
inductive AgreementLevel where
  | Strong
  | Moderate
  | Weak
deriving DecidableEq, Repr

/-- `getAgreementLevel` of the AgreementSection:
`rmse <= 5 && corr >= 0.7 → Strong; rmse <= 15 && corr >= 0.4 → Moderate;
else Weak` (identical in both copies of the component). -/
def getAgreementLevel (rmse corr : ℚ) : AgreementLevel :=
  if rmse ≤ 5 ∧ 7/10 ≤ corr then AgreementLevel.Strong
  else if rmse ≤ 15 ∧ 4/10 ≤ corr then AgreementLevel.Moderate
  else AgreementLevel.Weak

/-- C7: the agreement label is the stated total function of (rmse, corr):
Strong exactly on rmse ≤ 5 ∧ corr ≥ 0.7, otherwise Moderate exactly on
rmse ≤ 15 ∧ corr ≥ 0.4, otherwise Weak; re-running on identical inputs
yields the identical label. -/
theorem getAgreementLevel_spec (rmse corr : ℚ) :
    (getAgreementLevel rmse corr = AgreementLevel.Strong ↔
      rmse ≤ 5 ∧ 7/10 ≤ corr) ∧
    (getAgreementLevel rmse corr = AgreementLevel.Moderate ↔
      ¬(rmse ≤ 5 ∧ 7/10 ≤ corr) ∧ (rmse ≤ 15 ∧ 4/10 ≤ corr)) ∧
    (getAgreementLevel rmse corr = AgreementLevel.Weak ↔
      ¬(rmse ≤ 5 ∧ 7/10 ≤ corr) ∧ ¬(rmse ≤ 15 ∧ 4/10 ≤ corr)) ∧
    getAgreementLevel rmse corr = getAgreementLevel rmse corr := by
  unfold getAgreementLevel
  split_ifs with h1 h2
  · exact ⟨iff_of_true rfl h1, iff_of_false (by simp) (fun hc => hc.1 h1),
      iff_of_false (by simp) (fun hc => hc.1 h1), rfl⟩
  · exact ⟨iff_of_false (by simp) h1, iff_of_true rfl ⟨h1, h2⟩,
      iff_of_false (by simp) (fun hc => hc.2 h2), rfl⟩
  · exact ⟨iff_of_false (by simp) h1, iff_of_false (by simp) (fun hc => h2 hc.2),
      iff_of_true rfl ⟨h1, h2⟩, rfl⟩

-- ═══════════════════════════════════════════════════════════════
-- Overlay hook window clamping (useFractalOverlay)
-- ═══════════════════════════════════════════════════════════════

/-- `matchWindowLen = Math.min(90, Math.max(30, horizonDays))` of the
useFractalOverlay hook. -/
def matchWindowLen (horizonDays : ℕ) : ℕ :=
  min 90 (max 30 horizonDays)

/-- C9: the match window length sent to the Pattern Matcher is the horizon
length clamped into the engine-supported range [30, 90], and equals the
horizon length whenever that already lies in the range. -/
theorem matchWindowLen_spec (h : ℕ) :
    matchWindowLen h = min 90 (max 30 h) ∧
    30 ≤ matchWindowLen h ∧ matchWindowLen h ≤ 90 ∧
    (30 ≤ h → h ≤ 90 → matchWindowLen h = h) := by
  unfold matchWindowLen
  refine ⟨rfl, ?_, ?_, ?_⟩ <;> omega

/-- Witness for C9 at a 45-day horizon, inside the supported range. -/
theorem matchWindowLen_spec_witness :
    matchWindowLen 45 = 45 ∧ 30 ≤ matchWindowLen 45 ∧ matchWindowLen 45 ≤ 90 :=
  ⟨(matchWindowLen_spec 45).2.2.2 (by decide) (by decide),
    (matchWindowLen_spec 45).2.1, (matchWindowLen_spec 45).2.2.1⟩

-- ═══════════════════════════════════════════════════════════════
-- Risk & Sizing Engine (SizingDecision)
-- ═══════════════════════════════════════════════════════════════

/-- Hard blocker codes recognised by the Risk & Sizing Engine. -/
inductive BlockerCode where
  | LOW_CONFIDENCE
  | HIGH_ENTROPY
  | VOL_CRISIS
  | EXTREME_VOL_SPIKE
  | CONSTITUTION_BLOCK
  | DRIFT_CRITICAL
  | NO_SIGNAL
  | CONFLICT_HIGH
deriving DecidableEq, Repr

/-- Size label derived from the final size. -/
inductive SizeLabel where
  | NONE
  | MICRO
  | PARTIAL
  | FULL
deriving DecidableEq, Repr

/-- Trade mode of a sizing decision. -/
inductive TradeMode where
  | TRADE
  | NO_TRADE
deriving DecidableEq, Repr

/-- A SizingDecision as consumed by the RiskBox display component. -/
structure SizingDecision where
  finalSize : ℚ
  sizeLabel : SizeLabel
  blockers : List BlockerCode
  mode : TradeMode
deriving DecidableEq, Repr

/-- Modelled from the spec: the Risk & Sizing Engine itself (spec §4.6) is
not among the provided source files — only its display component
(RiskBox.jsx) and its consumers are.  Following the spec's words: start
from a base size, apply an ordered chain of multiplicative adjustments; if
any hard blocker fired, the final size is forced to 0 and the mode set to
NO_TRADE; otherwise the final size is clamped to [0,1] and the size label
derived from thresholds (< 0.25 → MICRO, < 0.5 → PARTIAL, else FULL). -/
def buildSizingDecision (baseSize : ℚ) (multipliers : List ℚ)
    (blockers : List BlockerCode) : SizingDecision :=
  if blockers.isEmpty then
    let raw := multipliers.foldl (fun acc m => acc * m) baseSize
    let fs := max 0 (min 1 raw)
    { finalSize := fs
      sizeLabel :=
        if fs < 1/4 then SizeLabel.MICRO
        else if fs < 1/2 then SizeLabel.PARTIAL
        else SizeLabel.FULL
      blockers := blockers
      mode := TradeMode.TRADE }
  else
    { finalSize := 0
      sizeLabel := SizeLabel.NONE
      blockers := blockers
      mode := TradeMode.NO_TRADE }

/-- C3: every SizingDecision has finalSize in [0,1], and a non-empty
blocker set forces finalSize = 0 with mode NO_TRADE. -/
theorem sizingDecision_invariant :
    (∀ (base : ℚ) (mults : List ℚ) (bl : List BlockerCode),
      0 ≤ (buildSizingDecision base mults bl).finalSize ∧
      (buildSizingDecision base mults bl).finalSize ≤ 1) ∧
    (∀ (base : ℚ) (mults : List ℚ) (b : BlockerCode) (bs : List BlockerCode),
      (buildSizingDecision base mults (b :: bs)).finalSize = 0 ∧
      (buildSizingDecision base mults (b :: bs)).mode = TradeMode.NO_TRADE) := by
  constructor
  · intro base mults bl
    unfold buildSizingDecision
    split_ifs with hb
    · refine ⟨le_max_left 0 _, ?_⟩
      exact max_le (by norm_num) (min_le_left 1 _)
    · exact ⟨le_refl 0, by norm_num⟩
  · intro base mults b bs
    simp [buildSizingDecision]

-- ═══════════════════════════════════════════════════════════════
-- Strategy route (GET /api/fractal/spx/strategy)
-- ═══════════════════════════════════════════════════════════════

/-- Risk presets accepted by the strategy route. -/
inductive RiskPreset where
  | CONSERVATIVE
  | BALANCED
  | AGGRESSIVE
deriving DecidableEq, Repr

/-- `presetMultipliers = {CONSERVATIVE: 0.5, BALANCED: 1.0, AGGRESSIVE: 1.5}`. -/
def presetMultiplier : RiskPreset → ℚ
  | RiskPreset.CONSERVATIVE => 1/2
  | RiskPreset.BALANCED => 1
  | RiskPreset.AGGRESSIVE => 3/2

/-- The numeric fields of the strategy route's response. -/
structure SpxStrategyOut where
  positionSize : ℚ
  entry : ℚ
  stopLoss : ℚ
  takeProfit : ℚ
deriving DecidableEq, Repr

/-- The numeric core of the strategy route:
`adjustedSize = Math.min(1, baseSize * presetMultipliers[preset])`,
`entry = price.current`,
`stopLoss = price.current * (1 - Math.abs(avgMaxDD) / 100)`,
`takeProfit = price.current * (1 + medianReturn)`. -/
def spxStrategyCalc (baseSize : ℚ) (preset : RiskPreset)
    (currentPrice avgMaxDD medianReturn : ℚ) : SpxStrategyOut :=
  { positionSize := min 1 (baseSize * presetMultiplier preset)
    entry := currentPrice
    stopLoss := currentPrice * (1 - |avgMaxDD| / 100)
    takeProfit := currentPrice * (1 + medianReturn) }

/-- C6 counterexample: with base size 0.8 and the AGGRESSIVE preset the
route returns min(1, 1.2) = 1, not the claimed base × multiplier = 1.2 —
the claim omits the cap at 1. -/
theorem spxStrategy_cap_counterexample :
    (spxStrategyCalc (4/5) RiskPreset.AGGRESSIVE 100 10 (5/100)).positionSize ≠
      (4/5) * presetMultiplier RiskPreset.AGGRESSIVE := by
  norm_num [spxStrategyCalc, presetMultiplier, min_def]

/-- C6 amended: the position size is the base size scaled by the preset
multiplier 0.5 / 1.0 / 1.5 and capped at 1; entry, stop and target are
derived from the current price, avgMaxDD and medianReturn as stated. -/
theorem spxStrategy_amended (base price dd mr : ℚ) :
    ((spxStrategyCalc base RiskPreset.CONSERVATIVE price dd mr).positionSize
        = min 1 (base * (1/2))) ∧
    ((spxStrategyCalc base RiskPreset.BALANCED price dd mr).positionSize
        = min 1 base) ∧
    ((spxStrategyCalc base RiskPreset.AGGRESSIVE price dd mr).positionSize
        = min 1 (base * (3/2))) ∧
    (∀ p : RiskPreset,
      (spxStrategyCalc base p price dd mr).positionSize ≤ 1 ∧
      (spxStrategyCalc base p price dd mr).entry = price ∧
      (spxStrategyCalc base p price dd mr).stopLoss = price * (1 - |dd| / 100) ∧
      (spxStrategyCalc base p price dd mr).takeProfit = price * (1 + mr)) := by
  refine ⟨rfl, by simp [spxStrategyCalc, presetMultiplier], rfl, ?_⟩
  intro p
  exact ⟨min_le_left 1 _, rfl, rfl, rfl⟩

-- ═══════════════════════════════════════════════════════════════
-- Route-level horizon validation and the replay route
-- ═══════════════════════════════════════════════════════════════

/-- Modelled from the spec: `isValidSpxHorizon` lives in
`spx-core/spx-horizon.config.ts`, which is not among the provided source
files; the supported set {7d, 14d, 30d, 90d, 180d, 365d} is taken from the
spec's supported-horizon set, echoed verbatim by the route's own 400 error
message. -/
def spxValidHorizons : List String :=
  ["7d", "14d", "30d", "90d", "180d", "365d"]

/-- Membership test in the supported horizon set. -/
def isValidSpxHorizon (focus : String) : Bool :=
  spxValidHorizons.contains focus

/-- Why a FocusPack build throws: an INSUFFICIENT_DATA message or any
other error. -/
inductive BuildErr where
  | insufficientData
  | other
deriving DecidableEq, Repr

/-- Outcome of a route: an error reply (HTTP status, ok flag) or a success
payload. -/
inductive RouteOut (α : Type) where
  | failure (status : ℕ) (ok : Bool)
  | success (data : α)

/-- GET /api/fractal/spx — reject unknown horizons with 400 before
building; a thrown build maps to 503 for INSUFFICIENT_DATA, else 500. -/
def spxFocusRoute {α : Type} (focus : String)
    (build : String → Except BuildErr α) : RouteOut α :=
  if isValidSpxHorizon focus = false then RouteOut.failure 400 false
  else
    match build focus with
    | Except.ok d => RouteOut.success d
    | Except.error BuildErr.insufficientData => RouteOut.failure 503 false
    | Except.error BuildErr.other => RouteOut.failure 500 false

/-- GET /api/fractal/spx/hybrid — reject unknown horizons with 400 before
building; any thrown build maps to 500. -/
def spxHybridRoute {α : Type} (focus : String)
    (build : String → Except BuildErr α) : RouteOut α :=
  if isValidSpxHorizon focus = false then RouteOut.failure 400 false
  else
    match build focus with
    | Except.ok d => RouteOut.success d
    | Except.error _ => RouteOut.failure 500 false

/-- The pieces of a built FocusPack that the strategy route reads. -/
structure SpxStrategyIn where
  sizeMultiplier : ℚ
  currentPrice : ℚ
  avgMaxDD : ℚ
  medianReturn : ℚ
deriving DecidableEq, Repr

/-- GET /api/fractal/spx/strategy — reject unknown horizons with 400 before
building, then apply the preset-scaled sizing and price derivations. -/
def spxStrategyRoute (focus : String) (preset : RiskPreset)
    (build : String → Except BuildErr SpxStrategyIn) :
    RouteOut SpxStrategyOut :=
  if isValidSpxHorizon focus = false then RouteOut.failure 400 false
  else
    match build focus with
    | Except.ok d => RouteOut.success
        (spxStrategyCalc d.sizeMultiplier preset d.currentPrice
          d.avgMaxDD d.medianReturn)
    | Except.error _ => RouteOut.failure 500 false

/-- The pieces of a built FocusPack that the replay route reads:
`fractalContract.explain.topMatches`, the overlay matches' aftermath paths
and `fractalContract.chartData`. -/
structure SpxReplayData (μ χ : Type) where
  topMatches : List μ
  overlayAftermath : List (List ℚ)
  chart : χ

/-- Outcome of the replay route: an error reply carrying only a status and
the ok flag, or the selected match with its replay path and chart data. -/
inductive SpxReplayOut (μ χ : Type) where
  | failure (status : ℕ) (ok : Bool)
  | success (selected : μ) (replayPath : List ℚ) (chart : χ)

/-- JavaScript array indexing `arr[i]` for a parsed integer index: `none`
models `parseInt` returning NaN (non-numeric query); a negative or
out-of-range index yields `undefined`. -/
def jsGet {α : Type} (l : List α) (i : Option ℤ) : Option α :=
  match i with
  | none => none
  | some n => if n < 0 then none else l.get? n.toNat

/-- GET /api/fractal/spx/replay — reject unknown horizons with 400, map a
thrown build to 500, return 404 when `topMatches[matchIndex]` is undefined,
else the selected match with `overlay.matches[matchIndex]?.aftermathNormalized
|| []` as replay path. -/
def spxReplayRoute {μ χ : Type} (focus : String) (matchIndex : Option ℤ)
    (build : String → Except BuildErr (SpxReplayData μ χ)) :
    SpxReplayOut μ χ :=
  if isValidSpxHorizon focus = false then SpxReplayOut.failure 400 false
  else
    match build focus with
    | Except.error _ => SpxReplayOut.failure 500 false
    | Except.ok pack =>
        match jsGet pack.topMatches matchIndex with
        | none => SpxReplayOut.failure 404 false
        | some m =>
            SpxReplayOut.success m
              ((jsGet pack.overlayAftermath matchIndex).getD []) pack.chart

/-- C8: a request whose horizon key is outside the supported set is
rejected by the focus-pack, replay, hybrid and strategy routes with a 400 /
ok=false reply, independently of the FocusPack builder — so before any
FocusPack computation is started. -/
theorem invalidHorizon_rejected (focus : String)
    (hf : focus ∉ spxValidHorizons) :
    (∀ (α : Type) (build : String → Except BuildErr α),
      spxFocusRoute focus build = RouteOut.failure 400 false) ∧
    (∀ (μ χ : Type) (idx : Option ℤ)
        (build : String → Except BuildErr (SpxReplayData μ χ)),
      spxReplayRoute focus idx build = SpxReplayOut.failure 400 false) ∧
    (∀ (α : Type) (build : String → Except BuildErr α),
      spxHybridRoute focus build = RouteOut.failure 400 false) ∧
    (∀ (preset : RiskPreset) (build : String → Except BuildErr SpxStrategyIn),
      spxStrategyRoute focus preset build = RouteOut.failure 400 false) := by
  have hv : isValidSpxHorizon focus = false := by
    simpa [isValidSpxHorizon] using hf
  refine ⟨?_, ?_, ?_, ?_⟩
  · intro α build
    simp [spxFocusRoute, hv]
  · intro μ χ idx build
    simp [spxReplayRoute, hv]
  · intro α build
    simp [spxHybridRoute, hv]
  · intro preset build
    simp [spxStrategyRoute, hv]

/-- Witness for C8 at the unsupported horizon key 5d. -/
theorem invalidHorizon_rejected_witness :
    spxFocusRoute "5d"
        (fun _ => (Except.error BuildErr.other : Except BuildErr ℚ))
      = RouteOut.failure 400 false ∧
    spxReplayRoute "5d" (some 0)
        (fun _ => (Except.error BuildErr.other :
          Except BuildErr (SpxReplayData ℕ ℕ)))
      = SpxReplayOut.failure 400 false ∧
    spxHybridRoute "5d"
        (fun _ => (Except.error BuildErr.other : Except BuildErr ℚ))
      = RouteOut.failure 400 false ∧
    spxStrategyRoute "5d" RiskPreset.BALANCED
        (fun _ => Except.error BuildErr.other)
      = RouteOut.failure 400 false := by
  have h := invalidHorizon_rejected "5d" (by decide)
  exact ⟨h.1 ℚ _, h.2.1 ℕ ℕ (some 0) _, h.2.2.1 ℚ _,
    h.2.2.2 RiskPreset.BALANCED _⟩

/-- C10: a replay request whose matchIndex fails to index an existing top
match — NaN from a non-numeric parameter, negative, or at least the number
of matches — yields the 404 / ok=false reply, which carries no selected
match, replay path or chart data. -/
theorem spxReplay_invalid_index {μ χ : Type} (focus : String)
    (idx : Option ℤ) (build : String → Except BuildErr (SpxReplayData μ χ))
    (pack : SpxReplayData μ χ)
    (hv : isValidSpxHorizon focus = true)
    (hb : build focus = Except.ok pack)
    (hbad : idx = none ∨ ∃ n : ℤ, idx = some n ∧
      (n < 0 ∨ (pack.topMatches.length : ℤ) ≤ n)) :
    spxReplayRoute focus idx build = SpxReplayOut.failure 404 false := by
  have hj : jsGet pack.topMatches idx = none := by
    rcases hbad with h0 | ⟨n, hn, hcase⟩
    · simp [jsGet, h0]
    · subst hn
      rcases hcase with hneg | hge
      · simp [jsGet, hneg]
      · simp only [jsGet]
        rw [if_neg (by omega)]
        exact List.get?_eq_none.mpr (by omega)
  simp [spxReplayRoute, hv, hb, hj]

/-- A two-match replay pack used to exercise the replay route. -/
def replayPack0 : SpxReplayData ℕ ℕ :=
  { topMatches := [11, 22]
    overlayAftermath := [[1/10], [2/10]]
    chart := 0 }

/-- Witness for C10: index 5 into a two-match pack yields the 404 reply. -/
theorem spxReplay_invalid_index_witness :
    spxReplayRoute "30d" (some 5) (fun _ => Except.ok replayPack0)
      = SpxReplayOut.failure 404 false :=
  spxReplay_invalid_index "30d" (some 5) (fun _ => Except.ok replayPack0)
    replayPack0 (by decide) rfl
    (Or.inr ⟨5, rfl, Or.inr (by simp [replayPack0])⟩)
